import Mathlib

/-!
Shallow embedding of the PolicySonar authentication layer:
the JWT helpers (`createToken`, `verifyToken`, `extractTokenFromHeader`),
the environment-variable module, the Remix auth loader, and the client
Auth Context (`signIn`, `signOut`, `hasRole`).
-/

namespace PolicySonar

/-- A thrown JavaScript `Error`, reduced to its message. -/
structure Thrown where
  message : String
deriving Repr, DecidableEq

/-- The payload accepted by `createToken` (the `JWTPayload` interface minus
`iat`/`exp`): required `userId`, optional `role` and `sessionId`. -/
structure InputPayload where
  userId : String
  role : Option String
  sessionId : Option String
deriving Repr, DecidableEq

/-- The two entries of `TOKEN_CONFIG`. -/
inductive TokenType where
  | access
  | refresh
deriving Repr, DecidableEq

/-- `expiresIn` from `TOKEN_CONFIG`, in seconds: '15m' for access, '7d' for refresh. -/
def expiresInSeconds : TokenType → Nat
  | .access => 900
  | .refresh => 604800

/-- The registered and custom claims a signed token may carry. -/
structure Claims where
  userId : Option String
  role : Option String
  sessionId : Option String
  iat : Option Nat
  exp : Option Nat
  iss : Option String
  aud : Option (List String)
deriving Repr, DecidableEq

/-- Modelled from the spec: the `jsonwebtoken` library is external to the
repository, so an HS256-signed token is modelled as its claims together with
the secret it was signed with; a signature check succeeds exactly when the
verifying secret equals the signing secret. -/
structure SignedToken where
  claims : Claims
  secret : String
deriving Repr, DecidableEq

/-- Modelled from the spec: `jsonwebtoken.sign` — signs the claims with the
given secret. -/
def jwtSign (claims : Claims) (secret : String) : SignedToken :=
  ⟨claims, secret⟩

/-- Modelled from the spec: `jsonwebtoken.verify` with `issuer` and `audience`
options — fails if the signature does not match the secret, the issuer or
audience claim differs from the expected constants, or the expiry is not in
the future. -/
def jwtVerify (t : SignedToken) (secret : String) (now : Nat)
    (issuer : String) (audience : List String) : Except Thrown Claims :=
  if t.secret ≠ secret then .error ⟨"invalid signature"⟩
  else if t.claims.iss ≠ some issuer then .error ⟨"jwt issuer invalid"⟩
  else if t.claims.aud ≠ some audience then .error ⟨"jwt audience invalid"⟩
  else
    match t.claims.exp with
    | some e => if e ≤ now then .error ⟨"jwt expired"⟩ else .ok t.claims
    | none => .ok t.claims

/-- `createToken(payload, tokenType)`: signs the payload with the configured
secret, the `expiresIn` of the token type, algorithm HS256, issuer
'policy-sonar' and audience ['web', 'mobile'].  `now` is the signing clock
(seconds); the library sets `iat := now` and `exp := now + expiresIn`. -/
def createToken (payload : InputPayload) (tokenType : TokenType)
    (secret : String) (now : Nat) : SignedToken :=
  jwtSign
    { userId := some payload.userId
      role := payload.role
      sessionId := payload.sessionId
      iat := some now
      exp := some (now + expiresInSeconds tokenType)
      iss := some "policy-sonar"
      aud := some ["web", "mobile"] }
    secret

/-- The payload returned by a successful `verifyToken`: the decoded claims,
with `userId` known to be present. -/
structure JWTPayload where
  userId : String
  role : Option String
  sessionId : Option String
  iat : Option Nat
  exp : Option Nat
  iss : Option String
  aud : Option (List String)
deriving Repr, DecidableEq

/-- The single error every `verifyToken` failure is rethrown as. -/
def invalidTokenError : Thrown := ⟨"Invalid or expired token"⟩

/-- `verifyToken(token)`: verifies with the configured secret, issuer
'policy-sonar' and audience ['web', 'mobile'], then requires a truthy
`userId` claim; every failure inside the `try` is caught and rethrown as the
single `Error('Invalid or expired token')`. -/
def verifyToken (t : SignedToken) (secret : String) (now : Nat) :
    Except Thrown JWTPayload :=
  match jwtVerify t secret now "policy-sonar" ["web", "mobile"] with
  | .error _ => .error invalidTokenError
  | .ok c =>
    match c.userId with
    | none => .error invalidTokenError
    | some u =>
      if u = "" then .error invalidTokenError
      else .ok ⟨u, c.role, c.sessionId, c.iat, c.exp, c.iss, c.aud⟩

/-- JavaScript's `String.prototype.startsWith`, over the character list. -/
def jsStartsWith (s p : String) : Bool :=
  s.data.take p.data.length == p.data

/-- JavaScript's `String.prototype.substring(n)`: drop the first `n`
characters. -/
def jsSubstringFrom (s : String) (n : Nat) : String :=
  ⟨s.data.drop n⟩

/-- JavaScript's `String.prototype.trim`: strip whitespace from both ends. -/
def jsTrim (s : String) : String :=
  ⟨((s.data.dropWhile Char.isWhitespace).reverse.dropWhile
      Char.isWhitespace).reverse⟩

/-- `extractTokenFromHeader(authHeader)`: returns the trimmed remainder after
the literal prefix "Bearer ", or null when the header is absent, lacks the
prefix, or trims to the empty string. -/
def extractTokenFromHeader (authHeader : Option String) : Option String :=
  match authHeader with
  | none => none
  | some h =>
    if jsStartsWith h "Bearer " then
      let token := jsTrim (jsSubstringFrom h 7)
      if token = "" then none else some token
    else none

/-- `env.JWT_SECRET`: `import.meta.env.VITE_JWT_SECRET || ''` — the raw value
when truthy (non-empty), otherwise the empty string. -/
def envJWTSecret (viteJWTSecret : Option String) : String :=
  match viteJWTSecret with
  | none => ""
  | some s => if s.isEmpty then "" else s

/-- The `console.error` lines emitted by the env module's validation loop over
`requiredVars = ['JWT_SECRET']`: a falsy value logs an error but nothing is
thrown. -/
def envValidationLog (jwtSecret : String) : List String :=
  if jwtSecret.isEmpty then
    ["Missing required environment variable: JWT_SECRET"]
  else []

/-- Module-scope validation in the JWT module:
`if (!env.JWT_SECRET) throw new Error('JWT_SECRET environment variable is not set')`. -/
def jwtModuleInit (jwtSecret : String) : Except Thrown Unit :=
  if jwtSecret.isEmpty then
    .error ⟨"JWT_SECRET environment variable is not set"⟩
  else .ok ()

/-- The `profiles` row shape selected by the loader and cached by the Auth
Context: `id, username, full_name, avatar_url, roles`. -/
structure Profile where
  id : String
  username : String
  full_name : Option String
  avatar_url : Option String
  roles : Option (List String)
deriving Repr, DecidableEq

/-- The `user` object assembled by the loader's 200 response. -/
structure UserView where
  id : String
  email : String
  username : String
  name : Option String
  avatar : Option String
  roles : List String
deriving Repr, DecidableEq

/-- A JSON body the loader can return. -/
inductive ResponseBody where
  | err (error : String)
  | errWithDetails (error : String) (details : String)
  | userData (user : UserView) (session : Option String)
deriving Repr, DecidableEq

/-- An HTTP response produced by `json(body, {status})`. -/
structure Response where
  status : Nat
  body : ResponseBody
deriving Repr, DecidableEq

/-- The Remix auth loader.  `verify` stands for the imported `verifyToken`
applied to a token string (its thrown error is the `Except.error` case and is
caught by the loader's top-level catch); `db` stands for the Supabase
`profiles` lookup by id, whose miss and error outcomes are both surfaced as
an error value (`error || !profile`), not an exception. -/
def loader (verify : String → Except Thrown JWTPayload)
    (db : String → Except Unit Profile)
    (authHeader : Option String) : Response :=
  match extractTokenFromHeader authHeader with
  | none => ⟨401, .err "Authorization token required"⟩
  | some token =>
    match verify token with
    | .error e => ⟨401, .errWithDetails "Authentication failed" e.message⟩
    | .ok payload =>
      match db payload.userId with
      | .error _ => ⟨404, .err "User profile not found"⟩
      | .ok profile =>
        ⟨200,
          .userData
            { id := payload.userId
              email := profile.username ++ "@example.com"
              username := profile.username
              name := profile.full_name
              avatar := profile.avatar_url
              roles := profile.roles.getD [] }
            payload.sessionId⟩

/-- A Supabase auth user, reduced to its id. -/
structure AuthUser where
  id : String
deriving Repr, DecidableEq

/-- The Auth Context's local state: `{user, profile, isLoading}`. -/
structure AuthState where
  user : Option AuthUser
  profile : Option Profile
  isLoading : Bool
deriving Repr, DecidableEq

/-- `signOut()`: sets `isLoading`, awaits `supabase.auth.signOut()` — whose
failure is returned as an error value the code never inspects — then clears
`user` and `profile` and finally resets `isLoading`. -/
def signOut (st : AuthState) (_backendResult : Except Thrown Unit) : AuthState :=
  let loading := { st with isLoading := true }
  let cleared := { loading with user := none, profile := none }
  { cleared with isLoading := false }

/-- `signIn(email, password)` as a state transformer: `backend` is the result
of `supabase.auth.signInWithPassword` (`.error e` when it returns an error,
`.ok u?` otherwise with the possibly-null `data.user`); `fetchProfile` is the
profile lookup run on success.  Returns the final state and the exception
propagated to the caller, if any; the `finally` block resets `isLoading` on
every path. -/
def signIn (st : AuthState) (backend : Except Thrown (Option AuthUser))
    (fetchProfile : String → Option Profile) : AuthState × Option Thrown :=
  let loading := { st with isLoading := true }
  match backend with
  | .error e => ({ loading with isLoading := false }, some e)
  | .ok none => ({ loading with isLoading := false }, none)
  | .ok (some u) =>
    let withUser := { loading with user := some u }
    let withProfile :=
      match fetchProfile u.id with
      | some p => { withUser with profile := some p }
      | none => withUser
    ({ withProfile with isLoading := false }, none)

/-- `hasRole(role)`: `profile?.roles?.includes(role) ?? false`. -/
def hasRole (st : AuthState) (role : String) : Bool :=
  match st.profile with
  | none => false
  | some p =>
    match p.roles with
    | none => false
    | some rs => rs.contains role

/-! Helper lemmas shared by the claim theorems. -/

/-- Inversion for a successful `jwtVerify`: all checks passed and the claims
are returned unchanged. -/
theorem jwtVerify_ok_inv (t : SignedToken) (secret : String) (now : Nat)
    (issuer : String) (audience : List String) (c : Claims)
    (h : jwtVerify t secret now issuer audience = .ok c) :
    c = t.claims ∧ t.secret = secret ∧ t.claims.iss = some issuer ∧
      t.claims.aud = some audience ∧ ∀ e, t.claims.exp = some e → now < e := by
  unfold jwtVerify at h
  split_ifs at h with h1 h2 h3
  rcases hexp : t.claims.exp with _ | e <;> simp only [hexp] at h
  · refine ⟨by simpa using h.symm, by simpa using h1, by simpa using h2,
      by simpa using h3, ?_⟩
    intro e he
    simp [hexp] at he
  · split_ifs at h with h4
    refine ⟨by simpa using h.symm, by simpa using h1, by simpa using h2,
      by simpa using h3, ?_⟩
    intro e' he'
    cases he'
    omega

/-- Every failure of `verifyToken` is the single rethrown error. -/
theorem verifyToken_error_eq (t : SignedToken) (secret : String) (now : Nat)
    (e : Thrown) (h : verifyToken t secret now = .error e) :
    e = invalidTokenError := by
  unfold verifyToken at h
  rcases hv : jwtVerify t secret now "policy-sonar" ["web", "mobile"]
      with e' | c <;> simp only [hv] at h
  · simpa using h.symm
  · rcases hu : c.userId with _ | u <;> simp only [hu] at h
    · simpa using h.symm
    · split_ifs at h with h0
      simpa using h.symm

/-- Inversion for a successful `verifyToken`: the signature, issuer, audience
and expiry checks passed and the `userId` claim is a non-empty string. -/
theorem verifyToken_ok_inv (t : SignedToken) (secret : String) (now : Nat)
    (pl : JWTPayload) (h : verifyToken t secret now = .ok pl) :
    t.secret = secret ∧ t.claims.iss = some "policy-sonar" ∧
      t.claims.aud = some ["web", "mobile"] ∧
      (∀ e, t.claims.exp = some e → now < e) ∧
      t.claims.userId = some pl.userId ∧ pl.userId ≠ "" := by
  unfold verifyToken at h
  rcases hv : jwtVerify t secret now "policy-sonar" ["web", "mobile"]
      with e' | c <;> simp only [hv] at h
  · simp at h
  · obtain ⟨hc, hs, hi, ha, he⟩ :=
      jwtVerify_ok_inv t secret now "policy-sonar" ["web", "mobile"] c hv
    rcases hu : c.userId with _ | u <;> simp only [hu] at h
    · simp at h
    · split_ifs at h with h0
      have hpl : pl = ⟨u, c.role, c.sessionId, c.iat, c.exp, c.iss, c.aud⟩ := by
        simpa using h.symm
      subst hc
      exact ⟨hs, hi, ha, he, by rw [hu, hpl], by rw [hpl]; exact h0⟩

/-! Claim theorems. -/

/-- Claim C1: for every payload with a (truthy) `userId` and either token
kind, a token produced by `createToken` with the configured secret — hence
issuer 'policy-sonar' and audience ['web', 'mobile'] — whose expiry lies in
the future verifies successfully, and `verifyToken` returns the original
claims unchanged up to the added `iat`/`exp` (and issuer/audience) claims. -/
theorem claim_C1_create_verify_roundtrip (p : InputPayload) (tt : TokenType)
    (secret : String) (signedAt verifiedAt : Nat)
    (hu : p.userId ≠ "")
    (hfuture : verifiedAt < signedAt + expiresInSeconds tt) :
    verifyToken (createToken p tt secret signedAt) secret verifiedAt =
      .ok ⟨p.userId, p.role, p.sessionId, some signedAt,
        some (signedAt + expiresInSeconds tt), some "policy-sonar",
        some ["web", "mobile"]⟩ := by
  have hlt : ¬ (signedAt + expiresInSeconds tt ≤ verifiedAt) :=
    Nat.not_le.mpr hfuture
  simp [verifyToken, jwtVerify, createToken, jwtSign, hlt, hu]

/-- Witness for C1 at a concrete payload, secret and clock. -/
theorem claim_C1_create_verify_roundtrip_witness :
    verifyToken (createToken ⟨"u1", none, some "s1"⟩ TokenType.access
        "topsecret" 100) "topsecret" 200 =
      .ok ⟨"u1", none, some "s1", some 100, some 1000, some "policy-sonar",
        some ["web", "mobile"]⟩ :=
  claim_C1_create_verify_roundtrip ⟨"u1", none, some "s1"⟩ TokenType.access
    "topsecret" 100 200 (by decide) (by decide)

/-- Claim C2: a token signed with a wrong secret, or expired, or with issuer
or audience differing from the fixed constants, or whose payload lacks a
(truthy) `userId` claim, fails verification, and every such failure is the
single `InvalidToken` error value, indistinguishable across sub-reasons. -/
theorem claim_C2_verify_failures_single_error (t : SignedToken)
    (secret : String) (now : Nat)
    (h : t.secret ≠ secret ∨ (∃ e, t.claims.exp = some e ∧ e ≤ now) ∨
      t.claims.iss ≠ some "policy-sonar" ∨
      t.claims.aud ≠ some ["web", "mobile"] ∨
      t.claims.userId.getD "" = "") :
    verifyToken t secret now = .error invalidTokenError := by
  rcases hr : verifyToken t secret now with e | pl
  · rw [verifyToken_error_eq t secret now e hr]
  · exfalso
    obtain ⟨hs, hi, ha, he, hu, hu0⟩ := verifyToken_ok_inv t secret now pl hr
    rcases h with h | ⟨e, hee, hle⟩ | h | h | h
    · exact h hs
    · exact absurd hle (Nat.not_le.mpr (he e hee))
    · exact h hi
    · exact h ha
    · rw [hu] at h
      exact hu0 h

/-- Witness for C2: a wrong verifying secret. -/
theorem claim_C2_verify_failures_single_error_witness :
    verifyToken
      ⟨⟨some "u1", none, none, some 0, some 1000, some "policy-sonar",
        some ["web", "mobile"]⟩, "rightsecret"⟩ "wrongsecret" 0 =
      .error invalidTokenError :=
  claim_C2_verify_failures_single_error
    ⟨⟨some "u1", none, none, some 0, some 1000, some "policy-sonar",
      some ["web", "mobile"]⟩, "rightsecret"⟩ "wrongsecret" 0
    (Or.inl (by decide))

/-- Claim C3: when the bearer token verifies to a payload with `userId` u and
the profile store returns the row for u, the loader returns 200 with the
assembled user view — `email` is the username with "@example.com" appended,
`name`/`avatar` come from `full_name`/`avatar_url`, null `roles` is coalesced
to the empty list — and `session` is the payload's `sessionId`. -/
theorem claim_C3_loader_success (verify : String → Except Thrown JWTPayload)
    (db : String → Except Unit Profile) (header : Option String)
    (token : String) (payload : JWTPayload) (row : Profile)
    (hextract : extractTokenFromHeader header = some token)
    (hverify : verify token = .ok payload)
    (hdb : db payload.userId = .ok row)
    (hid : row.id = payload.userId) :
    loader verify db header =
      ⟨200,
        .userData
          { id := payload.userId
            email := row.username ++ "@example.com"
            username := row.username
            name := row.full_name
            avatar := row.avatar_url
            roles := row.roles.getD [] }
          payload.sessionId⟩ := by
  simp [loader, hextract, hverify, hdb]

/-- Witness for C3: the spec's scenario — row `{id: "u1", username: "alice",
roles: null}` yields `user.roles == []` and `user.email ==
"alice@example.com"`. -/
theorem claim_C3_loader_success_witness :
    loader (fun _ => .ok ⟨"u1", none, some "sess", none, none, none, none⟩)
      (fun i => if i = "u1" then .ok ⟨"u1", "alice", none, none, none⟩
        else .error ())
      (some "Bearer tok") =
      ⟨200, .userData ⟨"u1", "alice@example.com", "alice", none, none, []⟩
        (some "sess")⟩ :=
  claim_C3_loader_success
    (fun _ => .ok ⟨"u1", none, some "sess", none, none, none, none⟩)
    (fun i => if i = "u1" then .ok ⟨"u1", "alice", none, none, none⟩
      else .error ())
    (some "Bearer tok") "tok" ⟨"u1", none, some "sess", none, none, none, none⟩
    ⟨"u1", "alice", none, none, none⟩ rfl rfl rfl rfl

/-- Claim C4: when a step after token extraction throws — in particular when
`verifyToken` fails, as for the expired token behind "Bearer abc.def.ghi" —
the loader's top-level catch returns 401 with error "Authentication failed"
and the exception's message as `details`, not distinguishing unexpected
errors from auth errors. -/
theorem claim_C4_loader_catches_thrown (verify : String → Except Thrown JWTPayload)
    (db : String → Except Unit Profile) (header : Option String)
    (token : String) (e : Thrown)
    (hextract : extractTokenFromHeader header = some token)
    (hverify : verify token = .error e) :
    loader verify db header =
      ⟨401, .errWithDetails "Authentication failed" e.message⟩ := by
  simp [loader, hextract, hverify]

/-- Witness for C4: a well-formed but expired token behind
"Bearer abc.def.ghi". -/
theorem claim_C4_loader_catches_thrown_witness :
    loader (fun _ => .error invalidTokenError) (fun _ => .error ())
      (some "Bearer abc.def.ghi") =
      ⟨401, .errWithDetails "Authentication failed" "Invalid or expired token"⟩ :=
  claim_C4_loader_catches_thrown (fun _ => .error invalidTokenError)
    (fun _ => .error ()) (some "Bearer abc.def.ghi") "abc.def.ghi"
    invalidTokenError rfl rfl

/-- Claim C5: when the bearer token verifies to a payload with `userId` u but
the profile lookup for u misses or errors (both collapsed into one error
case), the loader returns 404 with error "User profile not found"; the loader
only reads the store (`db` is a pure lookup), so no write is performed. -/
theorem claim_C5_loader_profile_not_found (verify : String → Except Thrown JWTPayload)
    (db : String → Except Unit Profile) (header : Option String)
    (token : String) (payload : JWTPayload)
    (hextract : extractTokenFromHeader header = some token)
    (hverify : verify token = .ok payload)
    (hdb : db payload.userId = .error ()) :
    loader verify db header = ⟨404, .err "User profile not found"⟩ := by
  simp [loader, hextract, hverify, hdb]

/-- Witness for C5: a valid token for "u1" with an empty profile store. -/
theorem claim_C5_loader_profile_not_found_witness :
    loader (fun _ => .ok ⟨"u1", none, none, none, none, none, none⟩)
      (fun _ => .error ()) (some "Bearer tok2") =
      ⟨404, .err "User profile not found"⟩ :=
  claim_C5_loader_profile_not_found
    (fun _ => .ok ⟨"u1", none, none, none, none, none, none⟩)
    (fun _ => .error ()) (some "Bearer tok2") "tok2"
    ⟨"u1", none, none, none, none, none, none⟩ rfl rfl rfl

/-- Claim C6: `extractTokenFromHeader` returns a token exactly when the
header is present, starts with the case-sensitive literal "Bearer ", and the
remainder is non-empty after trimming, in which case the result is that
trimmed remainder; every other header — absent, empty, wrong scheme, or
trimming to nothing — yields null.  The function is pure, so it has no side
effects. -/
theorem claim_C6_extract_token_characterization (header : Option String)
    (token : String) :
    extractTokenFromHeader header = some token ↔
      ∃ s, header = some s ∧ jsStartsWith s "Bearer " = true ∧
        jsTrim (jsSubstringFrom s 7) = token ∧ token ≠ "" := by
  cases header with
  | none => simp [extractTokenFromHeader]
  | some s =>
    simp only [extractTokenFromHeader, Option.some.injEq]
    by_cases hb : jsStartsWith s "Bearer " = true
    · by_cases ht : jsTrim (jsSubstringFrom s 7) = ""
      · simp only [hb, if_true, ht, if_pos rfl]
        constructor
        · intro h
          cases h
        · rintro ⟨s', hs', _, htrim, hne⟩
          cases hs'
          exact absurd (htrim ▸ ht) hne
      · simp only [hb, if_true, if_neg ht]
        constructor
        · intro h
          refine ⟨s, rfl, hb, ?_, ?_⟩
          · simpa using h
          · simp only [Option.some.injEq] at h
            rw [← h]
            exact ht
        · rintro ⟨s', hs', _, htrim, hne⟩
          cases hs'
          simpa using htrim
    · simp only [Bool.not_eq_true] at hb
      simp only [hb, Bool.false_eq_true, if_false]
      constructor
      · intro h
        cases h
      · rintro ⟨s', hs', hstart, _, _⟩
        cases hs'
        rw [hb] at hstart
        cases hstart

/-- Witness for C6: a header with extra whitespace around the token. -/
theorem claim_C6_extract_token_characterization_witness :
    extractTokenFromHeader (some "Bearer  abc ") = some "abc" :=
  (claim_C6_extract_token_characterization (some "Bearer  abc ") "abc").mpr
    ⟨"Bearer  abc ", rfl, rfl, rfl, by decide⟩

/-- Counterexample to claim C7: with the signing secret absent, the env
module yields the empty string, and the JWT module's module-scope validation
throws — initialization of the token-handling module does hard-fail. -/
theorem claim_C7_counterexample :
    jwtModuleInit (envJWTSecret none) =
      .error ⟨"JWT_SECRET environment variable is not set"⟩ := rfl

/-- Claim C7 (amended): when the signing-secret configuration value is
absent, the env module's lookup itself logs an error and does not throw, but
the token-handling module's module-scope validation then throws, so its
initialization hard-fails. -/
theorem claim_C7_amended_env_vs_module_init :
    envValidationLog (envJWTSecret none) =
        ["Missing required environment variable: JWT_SECRET"] ∧
      jwtModuleInit (envJWTSecret none) =
        .error ⟨"JWT_SECRET environment variable is not set"⟩ :=
  ⟨rfl, rfl⟩

/-- Claim C8: from every Auth Context state and whatever the backend
sign-out call returns, `signOut` clears the local `user` and `profile` state
and resets `isLoading` to false. -/
theorem claim_C8_signOut_clears_state (st : AuthState)
    (backendResult : Except Thrown Unit) :
    signOut st backendResult = ⟨none, none, false⟩ := rfl

/-- Claim C9: `hasRole` is a pure predicate over the cached profile — false
whenever no profile is loaded, and with a profile loaded it is true exactly
when the role is a member of that profile's roles set (null coalesced to the
empty set). -/
theorem claim_C9_hasRole_characterization (st : AuthState) (role : String) :
    (st.profile = none → hasRole st role = false) ∧
      ∀ p, st.profile = some p →
        (hasRole st role = true ↔ role ∈ p.roles.getD []) := by
  constructor
  · intro h
    simp [hasRole, h]
  · intro p hp
    cases hr : p.roles with
    | none => simp [hasRole, hp, hr]
    | some rs => simp [hasRole, hp, hr, List.contains, List.elem_eq_mem]

/-- Witness for C9: a loaded profile whose roles list holds "admin". -/
theorem claim_C9_hasRole_characterization_witness :
    hasRole ⟨none, some ⟨"u1", "alice", none, none, some ["admin"]⟩, false⟩
      "admin" = true :=
  ((claim_C9_hasRole_characterization
      ⟨none, some ⟨"u1", "alice", none, none, some ["admin"]⟩, false⟩
      "admin").2 ⟨"u1", "alice", none, none, some ["admin"]⟩ rfl).mpr
    (by decide)

/-- Claim C10: when the backend credential check returns an error, `signIn`
propagates exactly that error to its caller and leaves the cached `user` and
`profile` unchanged, with `isLoading` reset to false by the `finally`
block. -/
theorem claim_C10_signIn_error_preserves_state (st : AuthState) (e : Thrown)
    (fetchProfile : String → Option Profile) :
    signIn st (.error e) fetchProfile =
      ({ st with isLoading := false }, some e) := rfl

end PolicySonar
